import Mathlib

/-!
Verification development for the fritzbox-wol repository
(src/client.py, src/config.py, src/wakeup.py).

The Python source is shallowly embedded: pure functions become Lean
functions over Nat, String, List and a small Json inductive; fallible
Python code (raising exceptions) becomes Except-valued functions.
Machine integers are Nat with explicit reduction modulo 2^32 where the
MD5 algorithm wraps.  Library functionality the source calls
(hashlib.md5, str.encode, packaging.version, dict/str operations) is
modelled from the documented semantics of those libraries, restricted
to the value shapes the program feeds them.
-/

/-! ## MD5 (model of hashlib.md5, RFC 1321), over byte lists -/

/-- 2^32, the word modulus of MD5. -/
def M32 : Nat := 4294967296

/-- 32-bit wrapping addition. -/
def add32 (a b : Nat) : Nat := (a + b) % M32

/-- 32-bit bitwise complement. -/
def not32 (a : Nat) : Nat := Nat.xor (a % M32) 4294967295

/-- 32-bit left rotation by s (0 < s < 32 in all uses). -/
def rotl32 (x s : Nat) : Nat :=
  ((x % M32) * 2 ^ s + (x % M32) / 2 ^ (32 - s)) % M32

/-- The 64 MD5 sine-table constants K, in round order. -/
def md5K : List Nat :=
  [0xd76aa478, 0xe8c7b756, 0x242070db, 0xc1bdceee,
   0xf57c0faf, 0x4787c62a, 0xa8304613, 0xfd469501,
   0x698098d8, 0x8b44f7af, 0xffff5bb1, 0x895cd7be,
   0x6b901122, 0xfd987193, 0xa679438e, 0x49b40821,
   0xf61e2562, 0xc040b340, 0x265e5a51, 0xe9b6c7aa,
   0xd62f105d, 0x02441453, 0xd8a1e681, 0xe7d3fbc8,
   0x21e1cde6, 0xc33707d6, 0xf4d50d87, 0x455a14ed,
   0xa9e3e905, 0xfcefa3f8, 0x676f02d9, 0x8d2a4c8a,
   0xfffa3942, 0x8771f681, 0x6d9d6122, 0xfde5380c,
   0xa4beea44, 0x4bdecfa9, 0xf6bb4b60, 0xbebfbc70,
   0x289b7ec6, 0xeaa127fa, 0xd4ef3085, 0x04881d05,
   0xd9d4d039, 0xe6db99e5, 0x1fa27cf8, 0xc4ac5665,
   0xf4292244, 0x432aff97, 0xab9423a7, 0xfc93a039,
   0x655b59c3, 0x8f0ccc92, 0xffeff47d, 0x85845dd1,
   0x6fa87e4f, 0xfe2ce6e0, 0xa3014314, 0x4e0811a1,
   0xf7537e82, 0xbd3af235, 0x2ad7d2bb, 0xeb86d391]

/-- The 64 MD5 per-round left-rotation amounts. -/
def md5S : List Nat :=
  [7, 12, 17, 22, 7, 12, 17, 22, 7, 12, 17, 22, 7, 12, 17, 22,
   5, 9, 14, 20, 5, 9, 14, 20, 5, 9, 14, 20, 5, 9, 14, 20,
   4, 11, 16, 23, 4, 11, 16, 23, 4, 11, 16, 23, 4, 11, 16, 23,
   6, 10, 15, 21, 6, 10, 15, 21, 6, 10, 15, 21, 6, 10, 15, 21]

/-- The 8 little-endian bytes of the 64-bit message bit length. -/
def leBytes8 (n : Nat) : List Nat :=
  [n % 256, n / 2 ^ 8 % 256, n / 2 ^ 16 % 256, n / 2 ^ 24 % 256,
   n / 2 ^ 32 % 256, n / 2 ^ 40 % 256, n / 2 ^ 48 % 256, n / 2 ^ 56 % 256]

/-- MD5 padding: a 0x80 byte, zeros up to 56 mod 64, then the 64-bit
little-endian bit length of the original message. -/
def md5Pad (msg : List Nat) : List Nat :=
  msg ++ 0x80 :: List.replicate ((119 - msg.length % 64) % 64) 0
      ++ leBytes8 (msg.length * 8 % 2 ^ 64)

/-- Split a byte list into chunks of 64, with fuel for structural
recursion (one chunk consumes at least one element, so length is enough
fuel; the padded message has length a multiple of 64, so every chunk is
full). -/
def chunks64Go : Nat → List Nat → List (List Nat)
  | _, [] => []
  | 0, _ :: _ => []
  | fuel + 1, b :: bs => (b :: bs).take 64 :: chunks64Go fuel ((b :: bs).drop 64)

/-- Split a byte list into chunks of 64. -/
def chunks64 (l : List Nat) : List (List Nat) := chunks64Go l.length l

/-- Word g of a 64-byte block, little-endian. -/
def blockWord (blk : List Nat) (g : Nat) : Nat :=
  blk.getD (4 * g) 0 + 2 ^ 8 * blk.getD (4 * g + 1) 0
    + 2 ^ 16 * blk.getD (4 * g + 2) 0 + 2 ^ 24 * blk.getD (4 * g + 3) 0

/-- One of the 64 MD5 rounds, acting on the running (a, b, c, d) state. -/
def md5Step (blk : List Nat) (st : Nat × Nat × Nat × Nat) (i : Nat) :
    Nat × Nat × Nat × Nat :=
  let a := st.1
  let b := st.2.1
  let c := st.2.2.1
  let d := st.2.2.2
  let f :=
    if i < 16 then Nat.lor (Nat.land b c) (Nat.land (not32 b) d)
    else if i < 32 then Nat.lor (Nat.land d b) (Nat.land (not32 d) c)
    else if i < 48 then Nat.xor b (Nat.xor c d)
    else Nat.xor c (Nat.lor b (not32 d))
  let g :=
    if i < 16 then i
    else if i < 32 then (5 * i + 1) % 16
    else if i < 48 then (3 * i + 5) % 16
    else 7 * i % 16
  let tmp := add32 f (add32 a (add32 (md5K.getD i 0) (blockWord blk g)))
  (d, add32 b (rotl32 tmp (md5S.getD i 0)), b, c)

/-- Process one 64-byte block: run the 64 rounds and add the result into
the incoming state. -/
def md5Block (st : Nat × Nat × Nat × Nat) (blk : List Nat) :
    Nat × Nat × Nat × Nat :=
  let r := (List.range 64).foldl (md5Step blk) st
  (add32 st.1 r.1, add32 st.2.1 r.2.1, add32 st.2.2.1 r.2.2.1,
   add32 st.2.2.2 r.2.2.2)

/-- The final MD5 state over a byte message. -/
def md5State (msg : List Nat) : Nat × Nat × Nat × Nat :=
  (chunks64 (md5Pad msg)).foldl md5Block
    (0x67452301, 0xefcdab89, 0x98badcfe, 0x10325476)

/-- The 4 little-endian bytes of a 32-bit word. -/
def leBytes4 (w : Nat) : List Nat :=
  [w % 256, w / 2 ^ 8 % 256, w / 2 ^ 16 % 256, w / 2 ^ 24 % 256]

/-- The 16 MD5 digest bytes: the four state words serialized little-endian. -/
def md5Bytes (msg : List Nat) : List Nat :=
  leBytes4 (md5State msg).1 ++ leBytes4 (md5State msg).2.1
    ++ leBytes4 (md5State msg).2.2.1 ++ leBytes4 (md5State msg).2.2.2

/-- The sixteen lowercase hexadecimal digit characters. -/
def hexChars : List Char := "0123456789abcdef".data

/-- The lowercase hexadecimal digit for a value below 16. -/
def hexDigit (n : Nat) : Char := hexChars.getD n '0'

/-- The two lowercase hex characters of one byte. -/
def byteHex (b : Nat) : List Char := [hexDigit (b / 16 % 16), hexDigit (b % 16)]

/-- Lowercase hexadecimal rendering of the MD5 digest
(model of hashlib hexdigest). -/
def md5Hex (msg : List Nat) : String :=
  String.mk ((md5Bytes msg).flatMap byteHex)

/-! ## UTF-16 little-endian encoding (model of str.encode with utf-16-le) -/

/-- The UTF-16-LE bytes of one Unicode scalar value: two bytes below
0x10000, otherwise a surrogate pair, each unit little-endian. -/
def utf16leChar (c : Char) : List Nat :=
  let v := c.toNat
  if v < 0x10000 then [v % 256, v / 256 % 256]
  else
    [(0xD800 + (v - 0x10000) / 0x400) % 256,
     (0xD800 + (v - 0x10000) / 0x400) / 256 % 256,
     (0xDC00 + (v - 0x10000) % 0x400) % 256,
     (0xDC00 + (v - 0x10000) % 0x400) / 256 % 256]

/-- UTF-16-LE encoding of a string. -/
def utf16le (s : String) : List Nat := s.data.flatMap utf16leChar

/-! ## src/client.py : _calculate_response (lines 74-87) -/

/-- Embedding of _calculate_response: hash challenge-password with MD5
over the UTF-16-LE encoding and return challenge-hexdigest. -/
def calculate_response (challenge password : String) : String :=
  let challenge_pwd := challenge ++ "-" ++ password
  let hash_value := md5Hex (utf16le challenge_pwd)
  challenge ++ "-" ++ hash_value

/-! ## A small JSON value model (for the data.lua responses and config) -/

/-- JSON values, as response.json() and json.load produce them. -/
inductive Json where
  | null
  | bool (v : Bool)
  | num (n : Int)
  | str (s : String)
  | arr (xs : List Json)
  | obj (kvs : List (String × Json))

/-- First-match association lookup (Python dict keys are unique, so
first match is the match). -/
def jlookup (k : String) : List (String × Json) → Option Json
  | [] => none
  | (k2, v) :: rest => if k2 == k then some v else jlookup k rest

/-- Python exception kinds the embedded code can raise. -/
inductive PyErr where
  | keyError
  | typeError
  | attrError
deriving DecidableEq

/-- Python subscript d[k]: KeyError when the key is missing from a dict,
TypeError when the value is not a dict. -/
def pySub (j : Json) (k : String) : Except PyErr Json :=
  match j with
  | .obj kvs =>
      match jlookup k kvs with
      | some v => .ok v
      | none => .error .keyError
  | _ => .error .typeError

/-- Python d.get(k): None when missing; AttributeError when the receiver
is not a dict. -/
def pyGet (j : Json) (k : String) : Except PyErr (Option Json) :=
  match j with
  | .obj kvs => .ok (jlookup k kvs)
  | _ => .error .attrError

/-- Python str.split() with no separator: split on whitespace runs,
dropping empty tokens.  acc holds the current token reversed. -/
def pySplitGo (acc : List Char) : List Char → List String
  | [] => if acc.isEmpty then [] else [String.mk acc.reverse]
  | c :: cs =>
      if c.isWhitespace then
        if acc.isEmpty then pySplitGo [] cs
        else String.mk acc.reverse :: pySplitGo [] cs
      else pySplitGo (c :: acc) cs

/-- Python str.split() with no separator. -/
def pySplit (s : String) : List String := pySplitGo [] s.data

/-- Python needle in haystack over character lists: some suffix of the
haystack starts with the needle. -/
def containsSub (n : List Char) : List Char → Bool
  | [] => n.isEmpty
  | c :: cs => n.isPrefixOf (c :: cs) || containsSub n cs

/-- Python substring membership over strings. -/
def strContains (needle hay : String) : Bool := containsSub needle.data hay.data

/-- Python str.split(sep) for a one-character separator: cut at every
occurrence, keeping empty segments.  acc holds the current segment
reversed. -/
def splitChGo (sep : Char) (acc : List Char) : List Char → List String
  | [] => [String.mk acc.reverse]
  | c :: cs =>
      if c == sep then String.mk acc.reverse :: splitChGo sep [] cs
      else splitChGo sep (c :: acc) cs

/-- Python str.split with a one-character separator. -/
def splitCh (sep : Char) (s : String) : List String := splitChGo sep [] s.data

/-- Python str.startswith over the underlying characters. -/
def pyStartsWith (s pre : String) : Bool := pre.data.isPrefixOf s.data

/-- Python str.lower over the underlying characters (the program only
lowercases the ASCII method names get and post). -/
def pyLower (s : String) : String := String.mk (s.data.map Char.toLower)

/-- Python int() of a digit-only segment (the only segments
packaging.version accepts in a release); folds decimal digits. -/
def segNat (cs : List Char) : Nat :=
  cs.foldl (fun acc c => acc * 10 + (c.toNat - 48)) 0

/-- Python str.join over a list of strings. -/
def pyJoin (sep : String) : List String → String
  | [] => ""
  | [x] => x
  | x :: y :: rest => x ++ sep ++ pyJoin sep (y :: rest)

/-! ## src/client.py : transport and session (lines 21-61) -/

/-- One HTTP request as the transport wrapper issues it: method, url and
the verify flag passed through to the requests library. -/
structure HttpReq where
  method : String
  url : String
  verify : Json

/-- Python str() of a JSON value, for f-string interpolation of host and
port (the config schema supplies strings and integers there). -/
def jstr : Json → String
  | .null => "None"
  | .bool true => "True"
  | .bool false => "False"
  | .num n => toString n
  | .str s => s
  | .arr _ => "<list>"
  | .obj _ => "<dict>"

/-- The client state built by FritzBoxClient.__init__ (client.py lines
21-35): host, port, username from required keys, verify_ssl defaulting
to True, and the two endpoint URLs. -/
structure FBClient where
  host : Json
  port : Json
  username : Json
  verify_ssl : Json
  url_login : String
  url_data : String

/-- Embedding of FritzBoxClient.__init__ over the config dict. -/
def mk_client (config : List (String × Json)) : Except PyErr FBClient :=
  match jlookup "host" config with
  | none => .error .keyError
  | some host =>
  match jlookup "port" config with
  | none => .error .keyError
  | some port =>
  match jlookup "username" config with
  | none => .error .keyError
  | some username =>
    .ok { host := host, port := port, username := username,
          verify_ssl := (jlookup "verify_ssl" config).getD (Json.bool true),
          url_login := "https://" ++ jstr host ++ ":" ++ jstr port ++ "/login_sid.lua",
          url_data := "https://" ++ jstr host ++ ":" ++ jstr port ++ "/data.lua" }

/-- Embedding of _make_request (client.py lines 52-61): dispatch on the
lowercased method; any other method falls through both branches and the
Python function returns None.  The transport itself is abstracted as the
two responses doGet and doPost. -/
def make_request (doGet doPost : String) (method : String) : Option String :=
  if pyLower method == "get" then some doGet
  else if pyLower method == "post" then some doPost
  else none

/-- The request issued by _get_challenge (client.py line 70). -/
def get_challenge_req (c : FBClient) : HttpReq :=
  { method := "get", url := c.url_login, verify := c.verify_ssl }

/-- The request issued by the authentication step (client.py line 109). -/
def auth_req (c : FBClient) (response : String) : HttpReq :=
  { method := "get",
    url := c.url_login ++ "?username=" ++ jstr c.username ++ "&response=" ++ response,
    verify := c.verify_ssl }

/-- The request issued by get_device_uid (client.py lines 136-141). -/
def device_req (c : FBClient) : HttpReq :=
  { method := "post", url := c.url_data, verify := c.verify_ssl }

/-- The request issued by get_firmware_version (client.py lines 165-170). -/
def firmware_req (c : FBClient) : HttpReq :=
  { method := "post", url := c.url_data, verify := c.verify_ssl }

/-- The request issued by send_wakeup (client.py lines 203-208). -/
def wake_req (c : FBClient) : HttpReq :=
  { method := "post", url := c.url_data, verify := c.verify_ssl }

/-! ## src/client.py : authenticate (lines 89-119) -/

/-- The all-zero sentinel SID (client.py line 15). -/
def SID_NOAUTH : String := "0000000000000000"

/-- Embedding of the password resolution at client.py lines 102-103:
with no explicit password, take the configured one unless it is falsy
(absent or empty), in which case the getpass prompt result is used. -/
def resolve_password (explicit : Option String) (config_password : Option String)
    (prompted : String) : String :=
  match explicit with
  | some p => p
  | none =>
      match config_password with
      | some p => if p == "" then prompted else p
      | none => prompted

/-- Embedding of the SID check at client.py lines 111-119: the extracted
SID is rejected exactly when it equals the sentinel, and returned
otherwise.  The string argument is the text of the SID element of the
login response. -/
def authenticate_check (sid : String) : Except String String :=
  if sid == SID_NOAUTH then
    .error "Authentication failed. Please check username and password."
  else .ok sid

/-! ## src/client.py : get_device_uid (lines 121-151) -/

/-- One entry of the netDev inventory, with the two fields the code
reads (mac and UID). -/
structure NetDevice where
  mac : String
  UID : String

/-- The inner loop of get_device_uid over one device group. -/
def find_uid_in (mac_address : String) : List NetDevice → Option String
  | [] => none
  | d :: ds => if d.mac == mac_address then some d.UID else find_uid_in mac_address ds

/-- The outer loop of get_device_uid over the list of groups
(client.py line 144 iterates over the passive group, then the active one). -/
def find_uid_groups (mac_address : String) : List (List NetDevice) → Option String
  | [] => none
  | l :: ls =>
      match find_uid_in mac_address l with
      | some u => some u
      | none => find_uid_groups mac_address ls

/-- Embedding of get_device_uid (client.py lines 144-151) over the
parsed passive and active groups of the netDev response; the error case
is the LookupError raise. -/
def get_device_uid (passive active : List NetDevice) (mac_address : String) :
    Except String String :=
  match find_uid_groups mac_address [passive, active] with
  | some u => .ok u
  | none => .error ("Device with MAC address " ++ mac_address ++ " not found in FritzBox")

/-! ## src/client.py : get_firmware_version (lines 153-174) -/

/-- The try-block body of get_firmware_version: subscript the parsed
response at data, fritzos, nspver, require a string there (split is a
str method) and take token 0 of its whitespace split; a missing token is
the IndexError case. -/
def firmware_try (j : Json) : Except PyErr String :=
  match pySub j "data" with
  | .error e => .error e
  | .ok d =>
  match pySub d "fritzos" with
  | .error e => .error e
  | .ok f =>
  match pySub f "nspver" with
  | .error e => .error e
  | .ok n =>
  match n with
  | .str s =>
      match pySplit s with
      | t :: _ => .ok t
      | [] => .error .keyError
  | _ => .error .attrError

/-- Embedding of get_firmware_version (client.py lines 163-174): the
except clause catches KeyError and IndexError and yields the fallback
0.0.  The IndexError of an empty split is represented by the caught
constructor used in firmware_try for the missing-token case. -/
def get_firmware_version (j : Json) : Except PyErr String :=
  match firmware_try j with
  | .ok v => .ok v
  | .error .keyError => .ok "0.0"
  | .error e => .error e

/-! ## packaging.version comparison (library model) and the wake page -/

/-- Release segments of a dotted-numeric version string, as
packaging.version parses the versions this program produces
(digit segments separated by dots). -/
def version_release (s : String) : List Nat :=
  (splitCh '.' s).map (fun seg => segNat seg.data)

/-- Trailing zero segments are ignored by packaging.version comparison. -/
def strip_zeros (l : List Nat) : List Nat :=
  (l.reverse.dropWhile (fun n => n == 0)).reverse

/-- Lexicographic order on integer segment lists, shorter list first on
a tie (Python tuple comparison). -/
def seg_le : List Nat → List Nat → Bool
  | [], _ => true
  | _ :: _, [] => false
  | x :: xs, y :: ys => if x < y then true else if y < x then false else seg_le xs ys

/-- Model of packaging.version.parse(a) <= packaging.version.parse(b)
for release-only versions: compare stripped integer segment tuples. -/
def version_le (a b : String) : Bool :=
  seg_le (strip_zeros (version_release a)) (strip_zeros (version_release b))

/-- The page field send_wakeup posts (client.py lines 194-201): the
suffix 2 is appended exactly when the firmware is at most 7.24. -/
def wake_page (fw_version : String) : String :=
  if version_le fw_version "7.24" then "edit_device" ++ "2" else "edit_device"

/-- The full form payload send_wakeup posts (client.py lines 190-201). -/
def wake_payload (sid uid fw_version : String) : List (String × String) :=
  [("sid", sid), ("dev", uid), ("oldpage", "net/edit_device.lua"),
   ("page", wake_page fw_version), ("btn_wake", "")]

/-! ## src/client.py : send_wakeup success detection (lines 210-220) -/

/-- The wake response as the code consumes it: the content-type header
(defaulted to the empty string), the parsed JSON body used on the JSON
branch, and the raw text used on the other branch. -/
structure WakeResponse where
  contentType : String
  json : Json
  text : String

/-- The success flag computed at client.py lines 210-215: on a JSON
content type, data.get(data, dict).get(btn_wake) == ok over the parsed
body (an AttributeError escapes if a non-dict is reached); otherwise a
substring test on the raw text. -/
def wake_success (r : WakeResponse) : Except PyErr Bool :=
  if pyStartsWith r.contentType "application/json" then
    match pyGet r.json "data" with
    | .error e => .error e
    | .ok o1 =>
    match pyGet (o1.getD (Json.obj [])) "btn_wake" with
    | .error e => .error e
    | .ok o2 =>
        .ok (match o2 with
             | some (.str s) => s == "ok"
             | _ => false)
  else .ok (strContains "\"pid\":\"netDev\"" r.text)

/-- What send_wakeup can produce past the success computation. -/
inductive WakeOutcome where
  | ok
  | wakeFailure
  | pyErr (e : PyErr)
deriving DecidableEq

/-- Embedding of the tail of send_wakeup (client.py lines 217-220):
raise the RuntimeError unless the success flag holds, return True
otherwise. -/
def send_wakeup_result (r : WakeResponse) : WakeOutcome :=
  match wake_success r with
  | .error e => .pyErr e
  | .ok true => .ok
  | .ok false => .wakeFailure

/-- The spec reading of the JSON success condition: the parsed body has
data.btn_wake equal to ok. -/
def spec_btn_wake_ok (j : Json) : Bool :=
  match j with
  | .obj kvs =>
      match jlookup "data" kvs with
      | some (.obj k2) =>
          match jlookup "btn_wake" k2 with
          | some (.str s) => s == "ok"
          | _ => false
      | _ => false
  | _ => false

/-- Well-shapedness of a JSON wake response body: a dict whose data
member, when present, is a dict (what the .get chain assumes). -/
def json_wf : Json → Bool
  | .obj kvs =>
      match jlookup "data" kvs with
      | some (.obj _) => true
      | some _ => false
      | none => true
  | _ => false

/-! ## src/config.py : load_config (lines 33-40) and validate_device (43-64) -/

/-- The required configuration keys (config.py line 34). -/
def required_fields : List String := ["host", "port", "username", "devices"]

/-- Embedding of the required-field validation of load_config
(config.py lines 33-40): collect the missing keys and fail with a
message joining them, succeed with the config otherwise. -/
def load_config_check (config : List (String × Json)) :
    Except String (List (String × Json)) :=
  let missing := required_fields.filter (fun f => (jlookup f config).isNone)
  if missing.isEmpty then .ok config
  else .error ("Missing required fields: " ++ pyJoin ", " missing)

/-- Embedding of validate_device (config.py lines 57-64) over the
devices mapping of the config (device name to MAC string, per the
config schema): fail with a message listing every known device name
when the requested name is absent, return its MAC otherwise. -/
def validate_device (devices : List (String × String)) (device_name : String) :
    Except String String :=
  match devices.lookup device_name with
  | none =>
      .error ("Unknown device: " ++ device_name ++ "\n" ++ "Available devices: "
        ++ pyJoin ", " (devices.map (fun d => d.1)))
  | some mac => .ok mac

/-! ## src/wakeup.py : ordering of main (lines 46-68) -/

/-- The network-dependent tail of main (authenticate, lookup, wake),
abstracted as a function of the validated MAC: main runs load_config,
then validate_device, and only then touches the network. -/
def main_flow (devices : List (String × String)) (device_name : String)
    (network : String → Except String Unit) : Except String Unit :=
  match validate_device devices device_name with
  | .error e => .error e
  | .ok mac => network mac

/-- Lexicographic character-list order (what lexical string comparison
means; used only to contrast with the dotted-numeric comparison). -/
def lexLeChars : List Char → List Char → Bool
  | [], _ => true
  | _ :: _, [] => false
  | x :: xs, y :: ys => if x < y then true else if y < x then false else lexLeChars xs ys

/-- Lexical comparison of two strings. -/
def str_lex_le (a b : String) : Bool := lexLeChars a.data b.data

/-- A lowercase hexadecimal digit character. -/
def isLowerHexDigit (c : Char) : Bool :=
  (decide ('0' ≤ c) && decide (c ≤ '9')) || (decide ('a' ≤ c) && decide (c ≤ 'f'))

/-! ## Supporting lemmas -/

theorem hexDigit_lower (n : Nat) (h : n < 16) : isLowerHexDigit (hexDigit n) = true := by
  interval_cases n <;> decide

theorem byteHex_lower (b : Nat) : ∀ c ∈ byteHex b, isLowerHexDigit c = true := by
  intro c hc
  rcases List.mem_pair.mp hc with rfl | rfl
  · exact hexDigit_lower _ (Nat.mod_lt _ (by norm_num))
  · exact hexDigit_lower _ (Nat.mod_lt _ (by norm_num))

theorem md5Bytes_length (msg : List Nat) : (md5Bytes msg).length = 16 := by
  simp [md5Bytes, leBytes4]

theorem flatMap_byteHex_length (l : List Nat) : (l.flatMap byteHex).length = 2 * l.length := by
  induction l with
  | nil => rfl
  | cons b bs ih => simp [byteHex, ih]; omega

theorem md5Hex_length (msg : List Nat) : (md5Hex msg).length = 32 := by
  show ((md5Bytes msg).flatMap byteHex).length = 32
  rw [flatMap_byteHex_length, md5Bytes_length]

theorem md5Hex_chars (msg : List Nat) :
    ∀ c ∈ (md5Hex msg).data, isLowerHexDigit c = true := by
  intro c hc
  have hc2 : c ∈ (md5Bytes msg).flatMap byteHex := hc
  rcases List.mem_flatMap.mp hc2 with ⟨b, _, hcb⟩
  exact byteHex_lower b c hcb

/-! ## Claim theorems -/

/-- C1: calculate_response returns the challenge, a hyphen, and the
lowercase hexadecimal MD5 digest of the UTF-16-LE encoding of
challenge-hyphen-password; it is a pure function (repeated calls agree),
and its output is always the challenge, a hyphen, and 32 lowercase hex
characters. -/
theorem calculate_response_spec (c p : String) :
    calculate_response c p = c ++ "-" ++ md5Hex (utf16le (c ++ "-" ++ p)) ∧
    calculate_response c p = calculate_response c p ∧
    ∃ h : String, calculate_response c p = c ++ "-" ++ h ∧
      h.length = 32 ∧ ∀ ch ∈ h.data, isLowerHexDigit ch = true := by
  refine ⟨rfl, rfl, md5Hex (utf16le (c ++ "-" ++ p)), rfl, md5Hex_length _, md5Hex_chars _⟩

/-- C4: the extracted SID is rejected with the authentication failure
exactly when it equals the all-zero sentinel; any other SID is returned
as is, so a returned SID is never the sentinel. -/
theorem authenticate_check_spec (sid : String) :
    ((∃ e, authenticate_check sid = .error e) ↔ sid = SID_NOAUTH) ∧
    (sid ≠ SID_NOAUTH → authenticate_check sid = .ok sid) ∧
    (∀ s, authenticate_check sid = .ok s → s ≠ SID_NOAUTH) := by
  unfold authenticate_check
  by_cases h : sid = SID_NOAUTH
  · subst h
    simp
  · have hb : (sid == SID_NOAUTH) = false := beq_false_of_ne h
    simp only [hb, Bool.false_eq_true, if_false]
    refine ⟨⟨?_, fun he => absurd he h⟩, fun _ => by trivial, ?_⟩
    · rintro ⟨e, he⟩
      exact absurd he (by simp)
    · intro s hs
      cases hs
      exact h

/-- C4 witness: a non-sentinel SID is returned unchanged. -/
theorem authenticate_check_spec_witness :
    authenticate_check "123a567b9cde0f12" = .ok "123a567b9cde0f12" :=
  (authenticate_check_spec "123a567b9cde0f12").2.1 (by decide)

/-- C9: with no explicit password, an empty configured password falls
through to the interactive prompt (like an absent one), while a
non-empty configured password is used and the prompt result is ignored. -/
theorem resolve_password_spec (prompted : String) :
    resolve_password none (some "") prompted = prompted ∧
    resolve_password none none prompted = prompted ∧
    (∀ p, p ≠ "" → resolve_password none (some p) prompted = p) ∧
    (∀ p pr1 pr2, p ≠ "" →
      resolve_password none (some p) pr1 = resolve_password none (some p) pr2) := by
  refine ⟨rfl, rfl, ?_, ?_⟩
  · intro p hp
    simp [resolve_password, hp]
  · intro p pr1 pr2 hp
    simp [resolve_password, hp]

/-- C9 witness: the empty configured password prompts, a non-empty one
is used without consulting the prompt. -/
theorem resolve_password_spec_witness :
    resolve_password none (some "") "asked" = "asked" ∧
    resolve_password none (some "hunter2") "asked" = "hunter2" := by
  refine ⟨(resolve_password_spec "asked").1, ?_⟩
  exact (resolve_password_spec "asked").2.2.1 "hunter2" (by decide)

/-- C3: the page field of the wake payload is edit_device2 exactly when
the firmware version is at most 7.24 under the dotted-numeric
(segment-wise integer) comparison, and edit_device otherwise; in
particular 7.2, 7.24 and the fallback 0.0 take the legacy page while
7.25 and 7.30 do not, and the comparison is not the lexical string
order (7.100 is lexically below 7.24 but numerically above it). -/
theorem wake_page_spec (fw sid uid : String) :
    (wake_page fw = "edit_device2" ↔ version_le fw "7.24" = true) ∧
    (wake_page fw = "edit_device" ↔ version_le fw "7.24" = false) ∧
    List.lookup "page" (wake_payload sid uid fw) = some (wake_page fw) ∧
    wake_page "7.2" = "edit_device2" ∧
    wake_page "7.24" = "edit_device2" ∧
    wake_page "0.0" = "edit_device2" ∧
    wake_page "7.25" = "edit_device" ∧
    wake_page "7.30" = "edit_device" ∧
    version_le "7.100" "7.24" = false ∧
    str_lex_le "7.100" "7.24" = true := by
  refine ⟨?_, ?_, ?_, rfl, rfl, rfl, rfl, rfl, rfl, rfl⟩
  · cases hv : version_le fw "7.24" <;> simp [wake_page, hv]
  · cases hv : version_le fw "7.24" <;> simp [wake_page, hv]
  · simp [wake_payload, List.lookup]

/-- C8: with a method that lowercases to neither get nor post, the
request dispatcher falls through both branches and produces nothing;
every method string actually passed by callers in client.py is get or
post, so the fallthrough is unreachable from this program. -/
theorem make_request_spec (doGet doPost method : String) :
    (pyLower method ≠ "get" → pyLower method ≠ "post" →
      make_request doGet doPost method = none) ∧
    (∀ m ∈ ["get", "get", "post", "post", "post"],
      (make_request doGet doPost m).isSome = true) := by
  constructor
  · intro hg hp
    simp [make_request, hg, hp]
  · intro m hm
    simp only [List.mem_cons, List.not_mem_nil, or_false] at hm
    rcases hm with rfl | rfl | rfl | rfl | rfl <;> rfl

/-- C8 witness: the method PUT produces no request and no response. -/
theorem make_request_spec_witness :
    make_request "getResponse" "postResponse" "PUT" = none :=
  (make_request_spec "getResponse" "postResponse" "PUT").1 (by decide) (by decide)

/-- C10: when the config has no verify_ssl key, the constructed client
carries verify_ssl True, and every request the session issues (challenge
fetch, login, device listing, firmware probe, wake post) passes that
same True as its verify flag. -/
theorem verify_ssl_default_spec (config : List (String × Json)) (c : FBClient) :
    jlookup "verify_ssl" config = none → mk_client config = .ok c →
    c.verify_ssl = Json.bool true ∧
    (get_challenge_req c).verify = Json.bool true ∧
    (∀ resp, (auth_req c resp).verify = Json.bool true) ∧
    (device_req c).verify = Json.bool true ∧
    (firmware_req c).verify = Json.bool true ∧
    (wake_req c).verify = Json.bool true := by
  intro hnone hmk
  unfold mk_client at hmk
  have hv : c.verify_ssl = Json.bool true := by
    rcases hh : jlookup "host" config with _ | host <;> rw [hh] at hmk
    · cases hmk
    rcases hp : jlookup "port" config with _ | port <;> rw [hp] at hmk
    · cases hmk
    rcases hu : jlookup "username" config with _ | username <;> rw [hu] at hmk
    · cases hmk
    cases hmk
    simp [hnone]
  exact ⟨hv, hv, fun _ => hv, hv, hv, hv⟩

/-- C10 witness: a config of host, port and username only yields a
client that verifies TLS on each of its requests. -/
theorem verify_ssl_default_spec_witness :
    ∃ c, mk_client [("host", Json.str "fritz.box"), ("port", Json.num 443),
        ("username", Json.str "admin")] = .ok c ∧
      c.verify_ssl = Json.bool true ∧ (wake_req c).verify = Json.bool true := by
  refine ⟨_, rfl, ?_⟩
  have h := verify_ssl_default_spec [("host", Json.str "fritz.box"),
    ("port", Json.num 443), ("username", Json.str "admin")] _ rfl rfl
  exact ⟨h.1, h.2.2.2.2.2⟩

theorem find_uid_in_eq (m : String) (l : List NetDevice) :
    find_uid_in m l = (l.find? (fun d => d.mac == m)).map NetDevice.UID := by
  induction l with
  | nil => rfl
  | cons d ds ih =>
      by_cases h : d.mac == m
      · simp [find_uid_in, List.find?_cons, h]
      · simp only [Bool.not_eq_true] at h
        simp [find_uid_in, List.find?_cons, h, ih]

theorem find_uid_groups_pair (m : String) (p a : List NetDevice) :
    find_uid_groups m [p, a] = ((p ++ a).find? (fun d => d.mac == m)).map NetDevice.UID := by
  rw [List.find?_append]
  rcases hp : p.find? (fun d => d.mac == m) with _ | d
  · rcases ha : a.find? (fun d => d.mac == m) with _ | d2
    · simp [find_uid_groups, find_uid_in_eq, hp, ha]
    · simp [find_uid_groups, find_uid_in_eq, hp, ha]
  · simp [find_uid_groups, find_uid_in_eq, hp]

/-- C5: device resolution returns the UID of the first matching entry of
the passive group followed by the active group (exact string equality of
mac fields), and raises the lookup failure when no entry of either group
matches; a MAC present only in the active group resolves, and matching
performs no case normalization. -/
theorem get_device_uid_spec (passive active : List NetDevice) (mac : String) :
    (∀ d, (passive ++ active).find? (fun e => e.mac == mac) = some d →
      get_device_uid passive active mac = .ok d.UID) ∧
    ((passive ++ active).find? (fun e => e.mac == mac) = none →
      get_device_uid passive active mac =
        .error ("Device with MAC address " ++ mac ++ " not found in FritzBox")) ∧
    get_device_uid [] [⟨"AA:BB:CC:DD:EE:FF", "landevice1"⟩] "AA:BB:CC:DD:EE:FF" =
      .ok "landevice1" ∧
    get_device_uid [⟨"aa:bb:cc:dd:ee:ff", "landevice9"⟩] [] "AA:BB:CC:DD:EE:FF" =
      .error ("Device with MAC address AA:BB:CC:DD:EE:FF not found in FritzBox") := by
  refine ⟨?_, ?_, rfl, rfl⟩
  · intro d hd
    unfold get_device_uid
    rw [find_uid_groups_pair, hd]
    rfl
  · intro hn
    unfold get_device_uid
    rw [find_uid_groups_pair, hn]
    rfl

/-- C5 witness: the first of two matching entries wins, scanning the
passive group first. -/
theorem get_device_uid_spec_witness :
    get_device_uid [⟨"AA:BB:CC:DD:EE:FF", "landevice7"⟩]
      [⟨"AA:BB:CC:DD:EE:FF", "landevice8"⟩] "AA:BB:CC:DD:EE:FF" =
      .ok "landevice7" :=
  (get_device_uid_spec [⟨"AA:BB:CC:DD:EE:FF", "landevice7"⟩]
    [⟨"AA:BB:CC:DD:EE:FF", "landevice8"⟩] "AA:BB:CC:DD:EE:FF").1
    ⟨"AA:BB:CC:DD:EE:FF", "landevice7"⟩ rfl

/-- C6: the firmware query returns the first whitespace-delimited token
of data.fritzos.nspver when that field is present and has a token, and
on structural absence, a missing key anywhere along the path or a
token-less (empty or all-whitespace) nspver value, returns the fallback
0.0 instead of raising. -/
theorem get_firmware_version_spec (j : Json) :
    (∀ kvs k2 k3 s t rest, j = Json.obj kvs →
      jlookup "data" kvs = some (Json.obj k2) →
      jlookup "fritzos" k2 = some (Json.obj k3) →
      jlookup "nspver" k3 = some (Json.str s) →
      pySplit s = t :: rest →
      get_firmware_version j = .ok t) ∧
    (∀ kvs k2 k3 s, j = Json.obj kvs →
      jlookup "data" kvs = some (Json.obj k2) →
      jlookup "fritzos" k2 = some (Json.obj k3) →
      jlookup "nspver" k3 = some (Json.str s) →
      pySplit s = [] →
      get_firmware_version j = .ok "0.0") ∧
    (∀ kvs, j = Json.obj kvs →
      jlookup "data" kvs = none →
      get_firmware_version j = .ok "0.0") ∧
    (∀ kvs k2, j = Json.obj kvs →
      jlookup "data" kvs = some (Json.obj k2) →
      jlookup "fritzos" k2 = none →
      get_firmware_version j = .ok "0.0") ∧
    (∀ kvs k2 k3, j = Json.obj kvs →
      jlookup "data" kvs = some (Json.obj k2) →
      jlookup "fritzos" k2 = some (Json.obj k3) →
      jlookup "nspver" k3 = none →
      get_firmware_version j = .ok "0.0") := by
  refine ⟨?_, ?_, ?_, ?_, ?_⟩
  · rintro kvs k2 k3 s t rest rfl h1 h2 h3 hsp
    simp [get_firmware_version, firmware_try, pySub, h1, h2, h3, hsp]
  · rintro kvs k2 k3 s rfl h1 h2 h3 hsp
    simp [get_firmware_version, firmware_try, pySub, h1, h2, h3, hsp]
  · rintro kvs rfl h1
    simp [get_firmware_version, firmware_try, pySub, h1]
  · rintro kvs k2 rfl h1 h2
    simp [get_firmware_version, firmware_try, pySub, h1, h2]
  · rintro kvs k2 k3 rfl h1 h2 h3
    simp [get_firmware_version, firmware_try, pySub, h1, h2, h3]

/-- C6 witness: a full response yields the first token of nspver, and a
response missing the fritzos key yields the fallback. -/
theorem get_firmware_version_spec_witness :
    get_firmware_version (Json.obj [("data", Json.obj [("fritzos",
      Json.obj [("nspver", Json.str "7.57 AB")])])]) = .ok "7.57" ∧
    get_firmware_version (Json.obj [("data", Json.obj [])]) = .ok "0.0" := by
  constructor
  · exact (get_firmware_version_spec _).1 [("data", Json.obj [("fritzos",
      Json.obj [("nspver", Json.str "7.57 AB")])])]
      [("fritzos", Json.obj [("nspver", Json.str "7.57 AB")])]
      [("nspver", Json.str "7.57 AB")] "7.57 AB" "7.57" ["AB"] rfl rfl rfl rfl rfl
  · exact (get_firmware_version_spec _).2.2.2.1 [("data", Json.obj [])] []
      rfl rfl rfl

/-- C2 (amended): the wake request returns True exactly when the content
type indicates JSON and the parsed body has data.btn_wake equal to ok,
or the content type does not indicate JSON and the raw body contains the
pid netDev marker; and whenever the JSON branch operates on a body of
the shape its .get chain assumes (a dict whose data member, when
present, is a dict), the only other outcome is the wake failure.  On a
JSON body outside that shape an uncaught AttributeError escapes instead
of the wake failure, so the frozen no-other-outcome clause is false
there. -/
theorem send_wakeup_spec (r : WakeResponse) :
    (send_wakeup_result r = .ok ↔
      (pyStartsWith r.contentType "application/json" = true ∧
        spec_btn_wake_ok r.json = true) ∨
      (pyStartsWith r.contentType "application/json" = false ∧
        strContains "\"pid\":\"netDev\"" r.text = true)) ∧
    ((pyStartsWith r.contentType "application/json" = true →
        json_wf r.json = true) →
      send_wakeup_result r = .ok ∨ send_wakeup_result r = .wakeFailure) := by
  cases hct : pyStartsWith r.contentType "application/json"
  · cases hs : strContains "\"pid\":\"netDev\"" r.text <;>
      simp [send_wakeup_result, wake_success, hct, hs]
  · rcases hj : r.json with _ | v | n | s0 | xs | kvs
    · simp [send_wakeup_result, wake_success, hct, hj, pyGet, spec_btn_wake_ok, json_wf]
    · simp [send_wakeup_result, wake_success, hct, hj, pyGet, spec_btn_wake_ok, json_wf]
    · simp [send_wakeup_result, wake_success, hct, hj, pyGet, spec_btn_wake_ok, json_wf]
    · simp [send_wakeup_result, wake_success, hct, hj, pyGet, spec_btn_wake_ok, json_wf]
    · simp [send_wakeup_result, wake_success, hct, hj, pyGet, spec_btn_wake_ok, json_wf]
    rcases hd : jlookup "data" kvs with _ | d
    · simp [send_wakeup_result, wake_success, hct, hj, pyGet, hd, spec_btn_wake_ok,
        json_wf, jlookup]
    rcases d with _ | v | n | s1 | xs | k2
    · simp [send_wakeup_result, wake_success, hct, hj, pyGet, hd, spec_btn_wake_ok,
        json_wf]
    · simp [send_wakeup_result, wake_success, hct, hj, pyGet, hd, spec_btn_wake_ok,
        json_wf]
    · simp [send_wakeup_result, wake_success, hct, hj, pyGet, hd, spec_btn_wake_ok,
        json_wf]
    · simp [send_wakeup_result, wake_success, hct, hj, pyGet, hd, spec_btn_wake_ok,
        json_wf]
    · simp [send_wakeup_result, wake_success, hct, hj, pyGet, hd, spec_btn_wake_ok,
        json_wf]
    rcases hb : jlookup "btn_wake" k2 with _ | b
    · simp [send_wakeup_result, wake_success, hct, hj, pyGet, hd, hb, spec_btn_wake_ok,
        json_wf]
    rcases b with _ | v | n | s2 | xs | k3 <;>
      simp [send_wakeup_result, wake_success, hct, hj, pyGet, hd, hb, spec_btn_wake_ok,
        json_wf]
    cases hok : s2 == "ok" <;> simp [hok]
    · exact ne_of_beq_false hok
    · exact eq_of_beq hok

/-- C2 counterexample: a response with JSON content type and body with a
null data member satisfies neither success condition, yet the wake
request neither returns True nor raises the wake failure: the .get chain
raises an uncaught AttributeError, a third outcome the frozen claim
rules out. -/
theorem send_wakeup_spec_counterexample :
    pyStartsWith "application/json" "application/json" = true ∧
    spec_btn_wake_ok (Json.obj [("data", Json.null)]) = false ∧
    strContains "\"pid\":\"netDev\"" "" = false ∧
    send_wakeup_result ⟨"application/json", Json.obj [("data", Json.null)], ""⟩ =
      .pyErr .attrError ∧
    send_wakeup_result ⟨"application/json", Json.obj [("data", Json.null)], ""⟩ ≠
      .wakeFailure ∧
    send_wakeup_result ⟨"application/json", Json.obj [("data", Json.null)], ""⟩ ≠
      .ok :=
  ⟨rfl, rfl, rfl, rfl, by decide, by decide⟩

/-- C2 witness: a JSON response with btn_wake ok succeeds, a non-JSON
response without the marker fails with the wake failure. -/
theorem send_wakeup_spec_witness :
    send_wakeup_result ⟨"application/json",
      Json.obj [("data", Json.obj [("btn_wake", Json.str "ok")])], ""⟩ = .ok ∧
    send_wakeup_result ⟨"text/html", Json.null, "nope"⟩ = .wakeFailure := by
  constructor
  · exact (send_wakeup_spec ⟨"application/json",
      Json.obj [("data", Json.obj [("btn_wake", Json.str "ok")])], ""⟩).1.mpr
      (Or.inl ⟨rfl, rfl⟩)
  · have h := send_wakeup_spec ⟨"text/html", Json.null, "nope"⟩
    rcases h.2 (fun hc => absurd hc (by decide)) with hok | hfail
    · rcases h.1.mp hok with ⟨h3, _⟩ | ⟨_, h4⟩
      · exact absurd h3 (by decide)
      · exact absurd h4 (by decide)
    · exact hfail

theorem nil_isPrefixOf_true (l : List Char) : List.isPrefixOf [] l = true := by
  cases l <;> rfl

theorem containsSub_nil (h : List Char) : containsSub [] h = true := by
  cases h with
  | nil => rfl
  | cons c cs => rfl

theorem isPrefixOf_append_self (l t : List Char) :
    List.isPrefixOf l (l ++ t) = true := by
  induction l with
  | nil => exact nil_isPrefixOf_true _
  | cons a as ih =>
      show ((a == a) && List.isPrefixOf as (as ++ t)) = true
      rw [ih]
      simp

theorem containsSub_self_append (n t : List Char) :
    containsSub n (n ++ t) = true := by
  cases n with
  | nil => exact containsSub_nil _
  | cons a as =>
      show (List.isPrefixOf (a :: as) (a :: (as ++ t)) ||
        containsSub (a :: as) (as ++ t)) = true
      rw [show List.isPrefixOf (a :: as) (a :: (as ++ t)) = true from
        isPrefixOf_append_self (a :: as) t]
      rfl

theorem containsSub_append_left (n h pre : List Char)
    (hc : containsSub n h = true) : containsSub n (pre ++ h) = true := by
  induction pre with
  | nil => exact hc
  | cons c cs ih =>
      show (List.isPrefixOf n (c :: (cs ++ h)) || containsSub n (cs ++ h)) = true
      rw [ih]
      simp

theorem isPrefixOf_append_of_isPrefixOf (n h t : List Char)
    (hp : List.isPrefixOf n h = true) : List.isPrefixOf n (h ++ t) = true := by
  induction n generalizing h with
  | nil => exact nil_isPrefixOf_true _
  | cons a as ih =>
      cases h with
      | nil => cases hp
      | cons b bs =>
          have hp2 : ((a == b) && List.isPrefixOf as bs) = true := hp
          rw [Bool.and_eq_true] at hp2
          show ((a == b) && List.isPrefixOf as (bs ++ t)) = true
          rw [hp2.1, ih bs hp2.2]
          rfl

theorem containsSub_append_right (n h t : List Char)
    (hc : containsSub n h = true) : containsSub n (h ++ t) = true := by
  induction h with
  | nil =>
      cases n with
      | nil => exact containsSub_nil _
      | cons a as => cases hc
  | cons c cs ih =>
      have hc2 : (List.isPrefixOf n (c :: cs) || containsSub n cs) = true := hc
      rw [Bool.or_eq_true] at hc2
      show (List.isPrefixOf n (c :: (cs ++ t)) || containsSub n (cs ++ t)) = true
      rcases hc2 with hp | hcc
      · rw [show List.isPrefixOf n (c :: (cs ++ t)) = true from
          isPrefixOf_append_of_isPrefixOf n (c :: cs) t hp]
        rfl
      · rw [ih hcc]
        simp

theorem mem_pyJoin_contains (f : String) (l : List String) (hf : f ∈ l) :
    strContains f (pyJoin ", " l) = true := by
  induction l with
  | nil => cases hf
  | cons x xs ih =>
      cases xs with
      | nil =>
          rcases List.mem_singleton.mp hf with rfl
          show containsSub f.data (pyJoin ", " [f]).data = true
          have h1 : pyJoin ", " [f] = f := rfl
          rw [h1]
          have h2 := containsSub_self_append f.data []
          rwa [List.append_nil] at h2
      | cons y ys =>
          rcases List.mem_cons.mp hf with rfl | hmem
          · show containsSub f.data ((f ++ ", " ++ pyJoin ", " (y :: ys)).data) = true
            rw [String.data_append, String.data_append, List.append_assoc]
            exact containsSub_self_append f.data _
          · have hin := ih hmem
            show containsSub f.data ((x ++ ", " ++ pyJoin ", " (y :: ys)).data) = true
            rw [String.data_append]
            exact containsSub_append_left _ _ _ hin

/-- C7: config loading fails exactly on a missing required key, with a
message in which every missing required key appears; device validation
on an unknown name fails with a message listing every known device name
(and the offending name), a known name returns its MAC, and when the
name is unknown the run fails identically no matter what the network
would answer, so no network call is issued. -/
theorem config_validation_spec (config : List (String × Json))
    (devices : List (String × String)) (device_name : String) :
    ((∀ f ∈ required_fields, (jlookup f config).isSome = true) →
      load_config_check config = .ok config) ∧
    (∀ f ∈ required_fields, jlookup f config = none →
      ∃ msg, load_config_check config = .error msg ∧
        ∀ g ∈ required_fields, jlookup g config = none →
          strContains g msg = true) ∧
    (devices.lookup device_name = none →
      ∃ msg, validate_device devices device_name = .error msg ∧
        ∀ d ∈ devices, strContains d.1 msg = true) ∧
    (∀ mac, devices.lookup device_name = some mac →
      validate_device devices device_name = .ok mac) ∧
    (devices.lookup device_name = none → ∀ net1 net2,
      main_flow devices device_name net1 = main_flow devices device_name net2 ∧
      ∃ msg, main_flow devices device_name net1 = .error msg) := by
  have hval : devices.lookup device_name = none →
      ∃ msg, validate_device devices device_name = .error msg ∧
        ∀ d ∈ devices, strContains d.1 msg = true := by
    intro hn
    refine ⟨_, by rw [validate_device, hn], ?_⟩
    intro d hd
    have hmem : d.1 ∈ devices.map (fun e => e.1) := List.mem_map_of_mem _ hd
    have hjoin := mem_pyJoin_contains d.1 (devices.map (fun e => e.1)) hmem
    show containsSub d.1.data (("Unknown device: " ++ device_name ++ "\n" ++
      "Available devices: " ++ pyJoin ", " (devices.map (fun e => e.1))).data) = true
    rw [String.data_append]
    exact containsSub_append_left _ _ _ hjoin
  refine ⟨?_, ?_, hval, ?_, ?_⟩
  · intro hall
    have hnil : required_fields.filter (fun f => (jlookup f config).isNone) = [] := by
      rw [List.filter_eq_nil_iff]
      intro f hf
      have := hall f hf
      rcases ho : jlookup f config with _ | v
      · rw [ho] at this
        cases this
      · simp [ho]
    rw [load_config_check, hnil]
    rfl
  · intro f hf hnone
    have hmem : f ∈ required_fields.filter (fun g => (jlookup g config).isNone) :=
      List.mem_filter.mpr ⟨hf, by rw [hnone]; rfl⟩
    have hne : (required_fields.filter (fun g => (jlookup g config).isNone)).isEmpty
        = false := by
      rcases he : required_fields.filter (fun g => (jlookup g config).isNone) with
        _ | ⟨a, rest⟩
      · rw [he] at hmem
        cases hmem
      · rfl
    refine ⟨_, by rw [load_config_check, hne]; rfl, ?_⟩
    intro g hg hgnone
    have hgmem : g ∈ required_fields.filter (fun g2 => (jlookup g2 config).isNone) :=
      List.mem_filter.mpr ⟨hg, by rw [hgnone]; rfl⟩
    have hjoin := mem_pyJoin_contains g _ hgmem
    show containsSub g.data (("Missing required fields: " ++
      pyJoin ", " (required_fields.filter (fun g2 => (jlookup g2 config).isNone))).data)
      = true
    rw [String.data_append]
    exact containsSub_append_left _ _ _ hjoin
  · intro mac hm
    rw [validate_device, hm]
  · intro hn net1 net2
    rcases hval hn with ⟨msg, hmsg, _⟩
    constructor
    · rw [main_flow, main_flow, hmsg]
    · exact ⟨msg, by rw [main_flow, hmsg]⟩

/-- C7 witness: a config missing port and devices fails naming both, and
an unknown device name fails listing the known names before any use of
the network. -/
theorem config_validation_spec_witness :
    (∃ msg, load_config_check [("host", Json.str "h"),
        ("username", Json.str "u")] = .error msg ∧
      strContains "port" msg = true ∧ strContains "devices" msg = true) ∧
    (∃ msg, validate_device [("mypc", "AA:BB:CC:DD:EE:FF")] "printer" = .error msg ∧
      strContains "mypc" msg = true) := by
  have h := config_validation_spec [("host", Json.str "h"), ("username", Json.str "u")]
    [("mypc", "AA:BB:CC:DD:EE:FF")] "printer"
  constructor
  · rcases h.2.1 "port" (by decide) rfl with ⟨msg, hmsg, hall⟩
    exact ⟨msg, hmsg, hall "port" (by decide) rfl, hall "devices" (by decide) rfl⟩
  · rcases h.2.2.1 rfl with ⟨msg, hmsg, hall⟩
    exact ⟨msg, hmsg, hall ("mypc", "AA:BB:CC:DD:EE:FF") (by decide)⟩

set_option maxRecDepth 100000 in
/-- C1 witness: the documented vendor test vector (challenge 1234567z,
password with a non-ASCII character) hashes to the published response,
and the output decomposes as challenge, hyphen, 32-character digest. -/
theorem calculate_response_spec_witness :
    calculate_response "1234567z" "äbc" =
      "1234567z-9e224a41eeefa284df7bb0f26c2913e2" ∧
    ∃ h : String, calculate_response "1234567z" "äbc" = "1234567z" ++ "-" ++ h ∧
      h.length = 32 := by
  refine ⟨by decide, ?_⟩
  rcases (calculate_response_spec "1234567z" "äbc").2.2 with ⟨h, h1, h2, _⟩
  exact ⟨h, h1, h2⟩
